import Mathlib

/-!
Verification of the submission-over-criteria blueprint
(`app/blueprints/submission_evaluation.py`).

The Python handlers operate on JSON-shaped dynamic values, so the embedding
starts from a `Json` value type mirroring what `request.get_json()` /
`response.json()` / `json.loads` produce: `None`, booleans, numbers, strings,
lists, and dicts.  Dicts are association lists; `json.loads` builds Python
dicts in which a repeated key keeps its last binding, so key lookup below
takes the last matching binding.  Numbers are modelled as integers (every
number the handlers manipulate — token counts, status codes — is integral).

Python's dynamic attribute/subscript errors are modelled explicitly: calling
`.get` on a non-dict raises `AttributeError`, subscripting a dict with a
missing key raises `KeyError`, iterating a non-iterable raises `TypeError`,
and so on.  The blueprint's `try/except` clauses are modelled by running the
handler body in `Except PyExn` and dispatching on the exception class at the
end, exactly as the `except` ladder does.
-/

inductive Json where
  | null : Json
  | bool (b : Bool) : Json
  | num (n : Int) : Json
  | str (s : String) : Json
  | arr (elems : List Json) : Json
  | obj (fields : List (String × Json)) : Json

/-- Last binding of `key` in a field list: Python dicts built by `json.loads`
keep the last occurrence of a repeated key, so lookup returns the last match. -/
def fieldsGet : List (String × Json) → String → Option Json
  | [], _ => none
  | (k, v) :: rest, key =>
      match fieldsGet rest key with
      | some w => some w
      | none => if k = key then some v else none

/-- Key lookup on a value: `some` only when the value is a dict holding the key. -/
def Json.objGet : Json → String → Option Json
  | .obj fields, key => fieldsGet fields key
  | _, _ => none

/-- `v == "summary"`-style Python comparison of a dynamic value against a
string literal: true exactly when the value is that string. -/
def Json.eqStr (v : Json) (s : String) : Bool :=
  match v with
  | .str t => t == s
  | _ => false

/-- Python exception classes raised (directly or via `requests`) in the
blueprint.  `httpError` is `requests.exceptions.HTTPError` from
`raise_for_status`, carrying the response status; `connectionError` stands for
the network-level `requests` failures (`ConnectionError`, `Timeout`);
`responseJsonError` is `requests.exceptions.JSONDecodeError` raised by
`response.json()` — since requests 2.27 it subclasses both `RequestException`
and `json.JSONDecodeError`, and the blueprint's `except requests.RequestException`
clause comes first, so it is handled as a request failure.  `jsonDecodeError`
is the plain `json.JSONDecodeError` from `json.loads`. -/
inductive PyExn where
  | attributeError : PyExn
  | typeError : PyExn
  | keyError : PyExn
  | jsonDecodeError : PyExn
  | responseJsonError : PyExn
  | httpError (status : Nat) : PyExn
  | connectionError : PyExn
deriving DecidableEq

/-- `requests.RequestException` instance test for the `except` ladder. -/
def PyExn.isRequestException : PyExn → Bool
  | .httpError _ => true
  | .connectionError => true
  | .responseJsonError => true
  | _ => false

/-- Python truthiness (`if not data`): `None`, `False`, `0`, `""`, `[]`, and
`{}` are falsy, everything else truthy. -/
def pyTruthy : Json → Bool
  | .null => false
  | .bool b => b
  | .num n => n != 0
  | .str s => s ≠ ""
  | .arr elems => !elems.isEmpty
  | .obj fields => !fields.isEmpty

/-- Python `v.get(key, default)`: defined only on dicts; on any other value
the attribute access raises `AttributeError`. -/
def pyGet (v : Json) (key : String) (dflt : Json) : Except PyExn Json :=
  match v with
  | .obj fields => .ok ((fieldsGet fields key).getD dflt)
  | _ => .error .attributeError

/-- Python `v.get(key)` with no default: `None` when the key is absent. -/
def pyGetNone (v : Json) (key : String) : Except PyExn Json :=
  pyGet v key .null

/-- Python `v[key]` for a string key: `KeyError` when a dict lacks the key,
`TypeError` when the value is not a dict (string/list subscripts take
integers, numbers are not subscriptable). -/
def pyIndex (v : Json) (key : String) : Except PyExn Json :=
  match v with
  | .obj fields =>
      match fieldsGet fields key with
      | some w => .ok w
      | none => .error .keyError
  | _ => .error .typeError

/-- Python substring test `key in s` (`True` for the empty needle). -/
def strContains (s key : String) : Bool :=
  if key = "" then true else (s.splitOn key).length > 1

/-- Python `key in v` for a string `key`: key test on dicts, membership
(`==` against each element) on lists, substring test on strings, `TypeError`
otherwise. -/
def pyContains (v : Json) (key : String) : Except PyExn Bool :=
  match v with
  | .obj fields => .ok (fields.any (fun p => p.1 = key))
  | .arr elems => .ok (elems.any (fun x => x.eqStr key))
  | .str s => .ok (strContains s key)
  | _ => .error .typeError

/-- Python iteration `for x in v`: lists yield their elements, strings their
one-character substrings, dicts their keys; other values raise `TypeError`. -/
def pyIterate : Json → Except PyExn (List Json)
  | .arr elems => .ok elems
  | .str s => .ok (s.toList.map (fun c => .str c.toString))
  | .obj fields => .ok (fields.map (fun p => .str p.1))
  | _ => .error .typeError

/-- Python `repr` of a value, as it appears when a container is formatted
inside an f-string (strings single-quoted; escaping of special characters
inside strings is not modelled — no claim exercises it). -/
def pyRepr : Json → String
  | .null => "None"
  | .bool true => "True"
  | .bool false => "False"
  | .num n => toString n
  | .str s => "\x27" ++ s ++ "\x27"
  | .arr elems =>
      "[" ++ ", ".intercalate (elems.attach.map (fun x => pyRepr x.1)) ++ "]"
  | .obj fields =>
      "\x7b" ++
        ", ".intercalate (fields.attach.map
          (fun f => "\x27" ++ f.1.1 ++ "\x27: " ++ pyRepr f.1.2)) ++ "\x7d"
decreasing_by
  · have h := List.sizeOf_lt_of_mem x.2
    simp only [Json.arr.sizeOf_spec]
    omega
  · have h := List.sizeOf_lt_of_mem f.2
    obtain ⟨⟨k, v⟩, hm⟩ := f
    simp only [Prod.mk.sizeOf_spec] at h
    simp only [Json.obj.sizeOf_spec]
    omega

/-- Python `str(v)` as used by f-string interpolation (`f"thread-..."`):
identity on strings, `repr`-style rendering otherwise. -/
def pyStrF : Json → String
  | .str s => s
  | v => pyRepr v

/-- One entry of the prompt roster (`REQUIRED_PROMPTS`): a required prompt
template with its identity and default content. -/
structure PromptSpec where
  filename : String
  agent_name : String
  display_name : String
  description : String
  default_content : String
deriving DecidableEq

/-- The static roster of required prompt templates (`REQUIRED_PROMPTS`,
lines 15-162 of the blueprint), in source order. -/
def REQUIRED_PROMPTS : List PromptSpec := [
  { filename := "submission_evaluator_agent_prompt.jinja",
    agent_name := "submission_evaluator_agent",
    display_name := "Submission Evaluator",
    description := "Evaluates individual submissions against criteria",
    default_content := "You are an expert submission evaluator. Your job is to evaluate submissions against specific criteria.\n\nEvaluate each submission carefully and provide detailed feedback on how well it meets the criteria.\n\nProvide your evaluation in a structured format with scores and justifications.\n\nConsider the following aspects:\n- How well the submission addresses the core problem\n- The quality and depth of the proposed solution\n- Technical accuracy and completeness\n- Clarity and presentation quality\n\nFormat your response as a detailed evaluation with specific scores and clear justifications for each criterion." },
  { filename := "criteria_analyzer_agent_prompt.jinja",
    agent_name := "criteria_analyzer_agent",
    display_name := "Criteria Analyzer",
    description := "Analyzes and interprets evaluation criteria",
    default_content := "You are an expert criteria analyzer. Your job is to analyze and interpret evaluation criteria to ensure consistent assessment.\n\nBreak down the criteria into specific, measurable components.\n\nProvide clear guidance on how each criterion should be evaluated.\n\nConsider the following:\n- Define each criterion in specific, measurable terms\n- Provide evaluation guidelines for consistency\n- Identify potential scoring scales or rating systems\n- Highlight important considerations for each criterion\n\nFormat your response as a structured breakdown with clear evaluation guidance." },
  { filename := "feasibility_agent_prompt.jinja",
    agent_name := "feasibility_agent",
    display_name := "Feasibility Analyst",
    description := "Analyzes the feasibility and practicality of submissions",
    default_content := "You are an expert feasibility analyst. Your job is to evaluate the practical viability and implementation aspects of submissions.\n\nAnalyze each submission for:\n- Technical feasibility and implementation challenges\n- Resource requirements (time, budget, personnel)\n- Risk assessment and mitigation strategies\n- Timeline and milestone considerations\n- Dependencies and constraints\n\nConsider the following factors:\n- Current technology limitations and capabilities\n- Market conditions and external factors\n- Organizational capacity and capabilities\n- Regulatory and compliance requirements\n\nFormat your response with detailed feasibility assessments and risk evaluations." },
  { filename := "impact_agent_prompt.jinja",
    agent_name := "impact_agent",
    display_name := "Impact Assessor",
    description := "Evaluates the potential impact and effectiveness of submissions",
    default_content := "You are an expert impact assessor. Your job is to evaluate the potential impact, benefits, and long-term effectiveness of submissions.\n\nAnalyze each submission for:\n- Expected outcomes and benefits\n- Scalability and long-term sustainability\n- Cost-benefit analysis\n- Stakeholder impact and user experience\n- Innovation and competitive advantage\n\nConsider the following dimensions:\n- Short-term vs. long-term benefits\n- Quantifiable vs. qualitative impacts\n- Direct vs. indirect effects\n- Positive vs. negative consequences\n\nFormat your response with comprehensive impact assessments and benefit projections." },
  { filename := "summary_prompt.jinja",
    agent_name := "summary",
    display_name := "Summary Generator & Selector",
    description := "Generates comprehensive evaluation reports and selects the best submission",
    default_content := "You are an expert evaluator and decision maker. Your job is to generate comprehensive evaluation reports and select the best submission based on all agent analyses.\n\nYou will receive evaluation results from multiple specialized agents:\n1. Submission Evaluator Agent - Overall evaluation against criteria\n2. Criteria Analyzer Agent - Criteria interpretation and standards\n3. Feasibility Agent - Practical implementation analysis\n4. Impact Agent - Potential impact and effectiveness assessment\n\nIMPORTANT: You have access to these tools - USE THEM to get detailed information:\n- get_submission_details(submission_id): Get full details about any submission by its ID\n- get_criteria_breakdown(): Get detailed breakdown of evaluation criteria\n\nYour process:\n1. FIRST: Call get_criteria_breakdown() to understand criteria and see all submission IDs\n2. Review all agent evaluations and consolidate findings\n3. For each submission, call get_submission_details(submission_id) to get full content\n4. Compare submissions objectively using all evaluation dimensions\n5. Select the best submission with detailed justification\n\nStructure your response as:\n## Evaluation Summary\n[Overview of evaluation process and methodology]\n\n## Submissions Evaluated\n- **ID: sub_XXX** - [Title] by [Author]: [Comprehensive evaluation summary]\n\n## Agent Analysis Synthesis\n[Key insights from all specialized agents]\n\n## Selected Submission\n**Winner**: [ID and Title]\n\n**Justification**: Detailed reasoning with specific examples from submission content\n\n**Comparative Analysis**: Why this submission outperformed others\n\n**Key Strengths**: What made this submission exceptional across all evaluation dimensions\n\nRemember: Always use the tools to access detailed submission information and make data-driven decisions." },
  { filename := "user_proxy_prompt.jinja",
    agent_name := "user_proxy",
    display_name := "User Proxy",
    description := "Coordinates agent communication",
    default_content := "You are a user proxy agent. Your job is to coordinate communication between agents.\n\nFacilitate smooth communication and ensure all agents have the information they need.\n\nHelp maintain workflow efficiency.\n\nYour role is to:\n- Coordinate information flow between agents\n- Ensure all agents have necessary context\n- Facilitate clear communication\n- Help maintain the evaluation workflow\n\nKeep your responses concise and focused on coordination." }
]

/-- Outcome of one `requests` call: an HTTP response with its status code and
the result of `response.json()` on its body (`some v` when the body parses,
`none` when `response.json()` would raise), or a network-level failure
(`ConnectionError` / `Timeout`). -/
inductive HttpResult where
  | response (status : Nat) (body : Option Json) : HttpResult
  | failure : HttpResult

/-- `response.raise_for_status()` followed by `response.json()`:
`raise_for_status` raises `requests.exceptions.HTTPError` exactly when the
status code is in `[400, 600)`; a network failure raises a
`requests` connection error; an unparseable body raises
`requests.exceptions.JSONDecodeError`. -/
def responseJson : HttpResult → Except PyExn Json
  | .failure => .error .connectionError
  | .response status body =>
      if 400 ≤ status ∧ status < 600 then .error (.httpError status)
      else
        match body with
        | some v => .ok v
        | none => .error .responseJsonError

/-- One entry appended to `evaluations` (line 325-329): the dict
`agent / content / tokens` built from a decoded agent turn. -/
structure EvalEntry where
  agent : Json
  content : Json
  tokens : Json

/-- Lines 321-328: field extraction from one unwrapped turn
(`chat_data = chat["__dict__"]`): `chat_name` with default `""`,
the `chat_response → chat_message → __dict__ → content` drill with dict
defaults (`{}` at each intermediate step, `""` at the end), and
`completion_tokens` with default `0`.  Each `.get` raises `AttributeError`
when its receiver is not a dict. -/
def extractTurn (chat_data : Json) : Except PyExn EvalEntry := do
  let agent_name ← pyGet chat_data "chat_name" (.str "")
  let chat_response ← pyGet chat_data "chat_response" (.obj [])
  let chat_message ← pyGet chat_response "chat_message" (.obj [])
  let envelope ← pyGet chat_message "__dict__" (.obj [])
  let content ← pyGet envelope "content" (.str "")
  let tokens ← pyGet chat_data "completion_tokens" (.num 0)
  pure { agent := agent_name, content := content, tokens := tokens }

/-- The decomposition loop of lines 318-333: walk the decoded agent-turn
sequence in order; an element that is a dict carrying the `"__dict__"` key is
unwrapped and its fields extracted (appending to `evaluations`, and
overwriting `summary_response` whenever `agent_name == "summary"`); any other
element is skipped.  The accumulators are `evaluations` (so far) and
`summary_response` (initially `None`, modelled as `Json.null`). -/
def processChats : List Json → List EvalEntry → Json → Except PyExn (List EvalEntry × Json)
  | [], evaluations, summary_response => .ok (evaluations, summary_response)
  | chat :: rest, evaluations, summary_response =>
      match chat with
      | .obj fields =>
          match fieldsGet fields "__dict__" with
          | some chat_data => do
              let e ← extractTurn chat_data
              processChats rest (evaluations ++ [e])
                (if e.agent.eqStr "summary" then e.content else summary_response)
          | none => processChats rest evaluations summary_response
      | _ => processChats rest evaluations summary_response

/-- The dict serialized into `user_prompt` by `json.dumps` (lines 295-301).
The code sends its `json.dumps` rendering; the structured value is kept here,
since every claim reads its fields and `json.dumps` is injective on them. -/
structure UserPrompt where
  revision_id : Json
  identifier : Json
  submissions : Json
  criteria : Json
  additional_context : Json

/-- The `evaluation_request` dict built on lines 291-302 and posted to
`{API_BASE_URL}/api/v1/chat`. -/
structure EvaluationRequest where
  conversation_flow : String
  user_id : Json
  thread_id : Json
  user_prompt : UserPrompt

/-- Lines 291-302: assemble `evaluation_request` from the caller payload.
`user_id` defaults to `"flask-user"`; `thread_id` and `identifier` default to
`f"thread-{data['revision_id']}"` and `f"eval-{data['revision_id']}"`;
`additional_context` defaults to `""`.  `data["revision_id"]`,
`data["submissions"]` and `data["criteria"]` are mandatory subscripts. -/
def buildEvaluationRequest (data : Json) : Except PyExn EvaluationRequest := do
  let user_id ← pyGet data "user_id" (.str "flask-user")
  let revision_id ← pyIndex data "revision_id"
  let thread_id ← pyGet data "thread_id" (.str ("thread-" ++ pyStrF revision_id))
  let identifier ← pyGet data "identifier" (.str ("eval-" ++ pyStrF revision_id))
  let submissions ← pyIndex data "submissions"
  let criteria ← pyIndex data "criteria"
  let additional_context ← pyGet data "additional_context" (.str "")
  pure { conversation_flow := "submission-over-criteria"
         user_id := user_id
         thread_id := thread_id
         user_prompt := { revision_id := revision_id
                          identifier := identifier
                          submissions := submissions
                          criteria := criteria
                          additional_context := additional_context } }

/-- The required-field list of line 285, in source order. -/
def requiredFields : List String := ["revision_id", "submissions", "criteria"]

/-- The validation loop of lines 286-288 over an explicit field list:
`some f` is the first field with `f not in data` (the handler returns the 400
naming `f` there), `none` means all fields passed. -/
def firstMissingFrom (data : Json) : List String → Except PyExn (Option String)
  | [] => .ok none
  | f :: rest => do
      let present ← pyContains data f
      if present then firstMissingFrom data rest else pure (some f)

/-- The validation loop of lines 286-288 on the actual `required_fields`. -/
def firstMissingIn (data : Json) : Except PyExn (Option String) :=
  firstMissingFrom data requiredFields

/-- Line 312: `json.loads(result.get("agent_response", "[]"))`.  `json.loads`
itself is an external library function, modelled by the parse oracle
`loads : String → Option Json` (`none` = the text is not valid JSON, raising
`json.JSONDecodeError`); applying it to a non-string raises `TypeError`. -/
def loadAgentResponse (loads : String → Option Json) (result : Json) :
    Except PyExn Json := do
  let raw ← pyGet result "agent_response" (.str "[]")
  match raw with
  | .str s =>
      match loads s with
      | some v => pure v
      | none => .error .jsonDecodeError
  | _ => .error .typeError

/-- The `formatted_result` dict of lines 335-342. -/
structure FormattedResult where
  evaluation_id : Json
  thread_id : Json
  summary : Json
  evaluations : List EvalEntry
  token_count : Json
  timestamp : Json

/-- Lines 335-342: assemble `formatted_result` from the outer response
`result`, the caller payload `data`, and the accumulated
`evaluations` / `summary_response`. -/
def formatResult (result data : Json) (evaluations : List EvalEntry)
    (summary_response : Json) : Except PyExn FormattedResult := do
  let evaluation_id ← pyGetNone result "message_id"
  let thread_id ← pyGetNone result "thread_id"
  let token_count ← pyGet result "token_count" (.num 0)
  let timestamp ← pyGetNone data "timestamp"
  pure { evaluation_id := evaluation_id
         thread_id := thread_id
         summary := summary_response
         evaluations := evaluations
         token_count := token_count
         timestamp := timestamp }

/-- What the `api_evaluate_submissions` route returns to its caller:
`success` is `jsonify(formatted_result)` with HTTP 200; `badRequest` is one of
the 400 responses (`"Request data is required"` or
`"Field <f> is required"` naming the field `f`); `apiRequestFailed` is the 500
`"API request failed: ..."` from `except requests.RequestException`, carrying
the exception (and hence the HTTP status for an `HTTPError`);
`jsonParsingError` is the 500 `"JSON parsing error: ..."` from
`except json.JSONDecodeError`; `unexpectedError` is the catch-all 500
`"Unexpected error: ..."`. -/
inductive ApiResponse where
  | success (body : FormattedResult) : ApiResponse
  | badRequestNoData : ApiResponse
  | badRequestMissingField (f : String) : ApiResponse
  | apiRequestFailed (e : PyExn) : ApiResponse
  | jsonParsingError : ApiResponse
  | unexpectedError (e : PyExn) : ApiResponse

/-- The `try` body of `api_evaluate_submissions` (lines 280-344), before the
`except` ladder: validation, request building, the single `requests.post` to
`{API_BASE_URL}/api/v1/chat` (abstracted as `chat`, taking the built request),
decoding, the decomposition loop, and result formatting.  `loads` is the
`json.loads` parse oracle for the embedded `agent_response` text. -/
def evaluateBody (chat : EvaluationRequest → HttpResult)
    (loads : String → Option Json) (data : Json) : Except PyExn ApiResponse := do
  if !pyTruthy data then
    return .badRequestNoData
  match ← firstMissingIn data with
  | some f => return .badRequestMissingField f
  | none =>
  let evaluation_request ← buildEvaluationRequest data
  let result ← responseJson (chat evaluation_request)
  let agent_response ← loadAgentResponse loads result
  let chats ← pyIterate agent_response
  let (evaluations, summary_response) ← processChats chats [] .null
  let formatted_result ← formatResult result data evaluations summary_response
  return .success formatted_result

/-- The `except` ladder of lines 346-351: `requests.RequestException` first,
then `json.JSONDecodeError`, then the catch-all `Exception`. -/
def handleEvaluateExn (e : PyExn) : ApiResponse :=
  if e.isRequestException then .apiRequestFailed e
  else
    match e with
    | .jsonDecodeError => .jsonParsingError
    | _ => .unexpectedError e

/-- The full `api_evaluate_submissions` route handler (lines 276-351),
abstracted over the backend gateway `chat` (the `requests.post` call) and the
`json.loads` parse oracle `loads`; `data` is the parsed request body
(`request.get_json()`, with Python `None` as `Json.null`). -/
def api_evaluate_submissions (chat : EvaluationRequest → HttpResult)
    (loads : String → Option Json) (data : Json) : ApiResponse :=
  match evaluateBody chat loads data with
  | .ok r => r
  | .error e => handleEvaluateExn e

/-- One outbound `requests.post` to the prompt store: its URL and JSON body. -/
structure PostCall where
  url : String
  body : Json

/-- Line 256 (and 242): the prompt-update endpoint URL
`{API_BASE_URL}/api/v1/prompts/update/{revision_id}/{filename}`. -/
def promptUpdateUrl (base revision_id filename : String) : String :=
  base ++ "/api/v1/prompts/update/" ++ revision_id ++ "/" ++ filename

/-- Lines 257-263: the body posted for one roster entry by
`api_create_default_prompts`. -/
def promptData (p : PromptSpec) : Json :=
  .obj [("content", .str p.default_content),
        ("metadata", .obj [("agent_name", .str p.agent_name),
                           ("description", .str p.description)])]

/-- The full `requests.post` call issued for one roster entry. -/
def promptCall (base revision_id : String) (p : PromptSpec) : PostCall :=
  ⟨promptUpdateUrl base revision_id p.filename, promptData p⟩

/-- `response.raise_for_status()` alone (the response body is never read in
the prompt-store handlers): raises `HTTPError` exactly for statuses in
`[400, 600)`, `ConnectionError`/`Timeout` for a network failure. -/
def raiseForStatus : HttpResult → Except PyExn Unit
  | .failure => .error .connectionError
  | .response status _ =>
      if 400 ≤ status ∧ status < 600 then .error (.httpError status) else .ok ()

/-- Lines 266-270: the per-file success record appended to `results`. -/
def createdEntry (p : PromptSpec) : Json :=
  .obj [("filename", .str p.filename),
        ("status", .str "created"),
        ("display_name", .str p.display_name)]

/-- What `api_create_default_prompts` returns: the 200
`{"message": "All default prompts created successfully", "results": results}`
on full success, or the 500 `{"error": str(e)}` from
`except requests.RequestException`. -/
inductive CreateResponse where
  | success (results : List Json) : CreateResponse
  | requestFailed (e : PyExn) : CreateResponse

/-- The loop of lines 254-270, also recording the trace of `requests.post`
calls actually issued: each roster entry in order posts its default content
and, on success, appends its `created` record; the first failing
`raise_for_status` aborts the remaining entries (the loop body raises out of
the `for`). -/
def createLoop (post : PostCall → HttpResult) (base revision_id : String) :
    List PromptSpec → List PostCall → List Json → List PostCall × Except PyExn (List Json)
  | [], trace, results => (trace, .ok results)
  | p :: rest, trace, results =>
      let call := promptCall base revision_id p
      match raiseForStatus (post call) with
      | .error e => (trace ++ [call], .error e)
      | .ok () =>
          createLoop post base revision_id rest (trace ++ [call])
            (results ++ [createdEntry p])

/-- The `api_create_default_prompts` route handler (lines 250-274), abstracted
over the prompt store `post` (the `requests.post` call); returns the trace of
issued calls together with the HTTP response. -/
def api_create_default_prompts (post : PostCall → HttpResult)
    (base revision_id : String) : List PostCall × CreateResponse :=
  match createLoop post base revision_id REQUIRED_PROMPTS [] [] with
  | (trace, .ok results) => (trace, .success results)
  | (trace, .error e) => (trace, .requestFailed e)

/-- Lines 194-203: annotate the listed prompt files with roster metadata.
For each listed value, the first roster entry whose `filename` equals it (a
Python `==` between a string and a dynamic value) contributes one detail
record; a value matching no roster entry is dropped. -/
def promptDetails (prompt_files : List Json) : List Json :=
  prompt_files.filterMap (fun prompt_file =>
    match REQUIRED_PROMPTS.find? (fun p => prompt_file.eqStr p.filename) with
    | some p =>
        some (.obj [("filename", prompt_file),
                    ("display_name", .str p.display_name),
                    ("description", .str p.description),
                    ("agent_name", .str p.agent_name)])
    | none => none)

/-- What `api_list_prompts` returns: the 200 `jsonify(prompt_details)`, the
500 `{"error": str(e)}` from `except requests.RequestException`, or an
exception that no `except` clause catches (Flask's generic 500 — only
`RequestException` is handled in this route). -/
inductive ListResponse where
  | success (details : List Json) : ListResponse
  | requestFailed (e : PyExn) : ListResponse
  | uncaught (e : PyExn) : ListResponse

/-- The `try` body of `api_list_prompts` (lines 184-205): one `requests.get`
of `{API_BASE_URL}/api/v1/prompts/list/{revision_id}` (abstracted as `get`,
keyed by URL), `raise_for_status`, `response.json()`, the
`prompts_response.get("files", [])` extraction, and the metadata loop. -/
def listPromptsBody (get : String → HttpResult) (base revision_id : String) :
    Except PyExn (List Json) := do
  let r := get (base ++ "/api/v1/prompts/list/" ++ revision_id)
  let prompts_response ← responseJson r
  let prompt_files ← pyGet prompts_response "files" (.arr [])
  let files ← pyIterate prompt_files
  return promptDetails files

/-- The `api_list_prompts` route handler (lines 180-207):
`except requests.RequestException` is the only handler, so any other
exception escapes the route. -/
def api_list_prompts (get : String → HttpResult) (base revision_id : String) :
    ListResponse :=
  match listPromptsBody get base revision_id with
  | .ok details => .success details
  | .error e => if e.isRequestException then .requestFailed e else .uncaught e

/-- The recognition test of line 319:
`isinstance(chat, dict) and "__dict__" in chat`. -/
def isTurnObject (chat : Json) : Bool :=
  match chat with
  | .obj fields => fields.any (fun p => p.1 = "__dict__")
  | _ => false

/-- The envelope reached by line 320 (`chat_data = chat["__dict__"]`) for a
recognized turn object (`Json.null` placeholder otherwise). -/
def envelopeOf (chat : Json) : Json :=
  match chat with
  | .obj fields => (fieldsGet fields "__dict__").getD .null
  | _ => .null

/-- One link of the nested content path is acceptable when it is absent (the
code then continues on the `{}` default) or is a dict (whose fields the
continuation inspects); a present non-dict link makes the following `.get`
raise `AttributeError`. -/
def goodLink (link : Option Json) (next : List (String × Json) → Bool) : Bool :=
  match link with
  | none => true
  | some (.obj gs) => next gs
  | some _ => false

/-- Well-formedness of one unwrapped envelope for the extraction of lines
321-328: the envelope itself is a dict, and each value actually present along
the `chat_response → chat_message → __dict__` path is a dict. -/
def goodEnvelope (chat_data : Json) : Bool :=
  match chat_data with
  | .obj fields =>
      goodLink (fieldsGet fields "chat_response") (fun gs =>
        goodLink (fieldsGet gs "chat_message") (fun hs =>
          goodLink (fieldsGet hs "__dict__") (fun _ => true)))
  | _ => false

/-- Well-formedness of one element of the decoded turn sequence: either it is
not recognized as a turn object at all (then it is skipped), or its envelope
satisfies `goodEnvelope`. -/
def goodElem (chat : Json) : Bool :=
  match chat with
  | .obj fields =>
      match fieldsGet fields "__dict__" with
      | some chat_data => goodEnvelope chat_data
      | none => true
  | _ => true

/-- Modelled from the spec (§4.4 step 3, §9): the total optional-chain
reading of the nested content path
`turn → chat_response → chat_message → __dict__ → content`, `none` as soon as
any link is absent.  Stated against the source's `extractTurn` to compare the
two. -/
def contentChain (chat_data : Json) : Option Json := do
  let chat_response ← chat_data.objGet "chat_response"
  let chat_message ← chat_response.objGet "chat_message"
  let envelope ← chat_message.objGet "__dict__"
  envelope.objGet "content"

/-- A backend gateway stub answering every request identically. -/
def chatConst (r : HttpResult) : EvaluationRequest → HttpResult := fun _ => r

/-- A prompt-store stub failing on exactly one URL with the given status and
answering 200 elsewhere. -/
def postFailOn (u : String) (status : Nat) : PostCall → HttpResult :=
  fun c => if c.url = u then .response status none else .response 200 none

/-- A `json.loads` oracle stub: parses `"[]"` to the empty list (as
`json.loads` does) and answers by table lookup elsewhere (`none` = invalid
JSON text). -/
def loadsStd (table : List (String × Json)) : String → Option Json :=
  fun s => if s = "[]" then some (.arr []) else table.lookup s

/-- Modelled from the spec (§4.4): the decomposition described there extracts
one record per recognized turn, in sequence order, with no other effect.
Stated against the source's `processChats` loop to compare the two. -/
def extractSeq : List Json → Except PyExn (List EvalEntry)
  | [] => .ok []
  | c :: rest => do
      let e ← extractTurn (envelopeOf c)
      let es ← extractSeq rest
      pure (e :: es)

/-- A well-formed agent turn as the backend emits it: the `"__dict__"`
envelope around `chat_name`, the nested content path, and
`completion_tokens`. -/
def mkTurn (name content : String) (tokens : Int) : Json :=
  .obj [("__dict__", .obj
    [("chat_name", .str name),
     ("chat_response", .obj
       [("chat_message", .obj [("__dict__", .obj [("content", .str content)])])]),
     ("completion_tokens", .num tokens)])]

/-- A minimal valid caller payload for `api_evaluate_submissions`. -/
def dataMinimal : Json :=
  .obj [("revision_id", .str "r1"), ("submissions", .arr []), ("criteria", .arr [])]

/-- A backend chat response body with no `agent_response` field. -/
def resultPlain : Json :=
  .obj [("message_id", .str "m1"), ("thread_id", .str "t1"), ("token_count", .num 7)]

/-- A backend chat response body whose `agent_response` field holds the raw
text `s`. -/
def resultWith (s : String) : Json :=
  .obj [("agent_response", .str s), ("message_id", .str "m1"),
        ("thread_id", .str "t1"), ("token_count", .num 500)]

/-- An element recognized as a turn object (it carries the `"__dict__"` key)
whose envelope is not a dict. -/
def badTurn : Json := .obj [("__dict__", .num 5)]

/-- A prompt-listing gateway stub answering every URL identically. -/
def getConst (r : HttpResult) : String → HttpResult := fun _ => r

/-- The backend body of the C4 scenario: top-level `token_count` 500. -/
def resultTok500 : Json := .obj [("token_count", .num 500)]

/-- Per-turn entries of the C4 scenario, with tokens summing to 80. -/
def evalsTok : List EvalEntry :=
  [⟨.str "submission_evaluator_agent", .str "x", .num 30⟩,
   ⟨.str "criteria_analyzer_agent", .str "y", .num 50⟩]

/-- The formatted report of the C4 scenario. -/
def frC4 : FormattedResult := ⟨.null, .null, .null, evalsTok, .num 500, .null⟩

/-- The C1 scenario sequence: a valid turn, a bare string, a valid turn. -/
def elemsC1 : List Json :=
  [mkTurn "submission_evaluator_agent" "good" 3, .str "garbage",
   mkTurn "summary" "fine" 4]

/-- An empty placeholder `PromptSpec` (only used as a `getD` default). -/
def promptDflt : PromptSpec := ⟨"", "", "", "", ""⟩

instance {e a : Type} [DecidableEq e] [DecidableEq a] : DecidableEq (Except e a)
  | .ok x, .ok y =>
      if h : x = y then .isTrue (by rw [h])
      else .isFalse (fun hc => h (Except.ok.inj hc))
  | .error x, .error y =>
      if h : x = y then .isTrue (by rw [h])
      else .isFalse (fun hc => h (Except.error.inj hc))
  | .ok _, .error _ => .isFalse (fun hc => Except.noConfusion hc)
  | .error _, .ok _ => .isFalse (fun hc => Except.noConfusion hc)

theorem fieldsGet_isSome (fields : List (String × Json)) (key : String) :
    (fieldsGet fields key).isSome = fields.any (fun p => p.1 = key) := by
  induction fields with
  | nil => simp [fieldsGet]
  | cons p rest ih =>
      obtain ⟨k, v⟩ := p
      simp only [fieldsGet, List.any_cons]
      cases h : fieldsGet rest key with
      | some w =>
          rw [h] at ih
          simp only [Option.isSome_some] at ih
          simp [← ih]
      | none =>
          rw [h] at ih
          simp only [Option.isSome_none] at ih
          by_cases hk : k = key <;> simp [hk, ← ih]

theorem extractTurn_of_good (chat_data : Json) (h : goodEnvelope chat_data = true) :
    extractTurn chat_data = .ok
      { agent := (chat_data.objGet "chat_name").getD (.str "")
        content := (contentChain chat_data).getD (.str "")
        tokens := (chat_data.objGet "completion_tokens").getD (.num 0) } := by
  match chat_data, h with
  | .obj fields, h =>
    simp only [goodEnvelope] at h
    cases h1 : fieldsGet fields "chat_response" with
    | none =>
        simp [extractTurn, pyGet, contentChain, Json.objGet, h1, fieldsGet,
          Bind.bind, Except.bind, Option.bind, pure, Except.pure]
    | some v =>
        rw [h1] at h
        match v, h with
        | .obj gs, h =>
          simp only [goodLink] at h
          cases h2 : fieldsGet gs "chat_message" with
          | none =>
              simp [extractTurn, pyGet, contentChain, Json.objGet, h1, h2, fieldsGet,
                Bind.bind, Except.bind, Option.bind, pure, Except.pure]
          | some w =>
              rw [h2] at h
              match w, h with
              | .obj hs, h =>
                simp only [goodLink] at h
                cases h3 : fieldsGet hs "__dict__" with
                | none =>
                    simp [extractTurn, pyGet, contentChain, Json.objGet, h1, h2, h3,
                      fieldsGet, Bind.bind, Except.bind, Option.bind, pure, Except.pure]
                | some u =>
                    rw [h3] at h
                    match u, h with
                    | .obj us, h =>
                      simp [extractTurn, pyGet, contentChain, Json.objGet, h1, h2, h3,
                        Bind.bind, Except.bind, Option.bind, pure, Except.pure]

theorem processChats_of_good (chats : List Json) (acc : List EvalEntry) (summ : Json)
    (h : ∀ c ∈ chats, goodElem c = true) :
    ∃ out summOut,
      processChats chats acc summ = .ok (acc ++ out, summOut) ∧
      extractSeq (chats.filter isTurnObject) = .ok out := by
  induction chats generalizing acc summ with
  | nil => exact ⟨[], summ, by simp [processChats], by simp [extractSeq]⟩
  | cons chat rest ih =>
      have hchat : goodElem chat = true := h chat (by simp)
      have hrest : ∀ c ∈ rest, goodElem c = true := fun c hc => h c (by simp [hc])
      cases chat with
      | obj fields =>
          cases h1 : fieldsGet fields "__dict__" with
          | some chat_data =>
              have hgood : goodEnvelope chat_data = true := by
                simpa [goodElem, h1] using hchat
              obtain ⟨e, he⟩ : ∃ e, extractTurn chat_data = .ok e :=
                ⟨_, extractTurn_of_good chat_data hgood⟩
              obtain ⟨out, summOut, hrun, hmap⟩ :=
                ih (acc ++ [e]) (if e.agent.eqStr "summary" then e.content else summ) hrest
              have hturn : isTurnObject (.obj fields) = true := by
                have hs := fieldsGet_isSome fields "__dict__"
                rw [h1] at hs
                simp only [Option.isSome_some] at hs
                simp [isTurnObject, ← hs]
              refine ⟨e :: out, summOut, ?_, ?_⟩
              · simp only [processChats, h1, he, Bind.bind, Except.bind]
                rw [hrun]
                simp
              · simp [List.filter_cons, hturn, extractSeq, envelopeOf, h1, he, hmap,
                  Bind.bind, Except.bind, pure, Except.pure]
          | none =>
              have hturn : isTurnObject (.obj fields) = false := by
                have hs := fieldsGet_isSome fields "__dict__"
                rw [h1] at hs
                simp only [Option.isSome_none] at hs
                simp [isTurnObject, ← hs]
              obtain ⟨out, summOut, hrun, hmap⟩ := ih acc summ hrest
              refine ⟨out, summOut, ?_, ?_⟩
              · simpa [processChats, h1] using hrun
              · simpa [List.filter_cons, hturn] using hmap
      | null =>
          obtain ⟨out, summOut, hrun, hmap⟩ := ih acc summ hrest
          exact ⟨out, summOut, by simpa [processChats] using hrun,
            by simpa [List.filter_cons, isTurnObject] using hmap⟩
      | bool b =>
          obtain ⟨out, summOut, hrun, hmap⟩ := ih acc summ hrest
          exact ⟨out, summOut, by simpa [processChats] using hrun,
            by simpa [List.filter_cons, isTurnObject] using hmap⟩
      | num n =>
          obtain ⟨out, summOut, hrun, hmap⟩ := ih acc summ hrest
          exact ⟨out, summOut, by simpa [processChats] using hrun,
            by simpa [List.filter_cons, isTurnObject] using hmap⟩
      | str s =>
          obtain ⟨out, summOut, hrun, hmap⟩ := ih acc summ hrest
          exact ⟨out, summOut, by simpa [processChats] using hrun,
            by simpa [List.filter_cons, isTurnObject] using hmap⟩
      | arr elems =>
          obtain ⟨out, summOut, hrun, hmap⟩ := ih acc summ hrest
          exact ⟨out, summOut, by simpa [processChats] using hrun,
            by simpa [List.filter_cons, isTurnObject] using hmap⟩

theorem processChats_summary (chats : List Json) (acc : List EvalEntry) (summ : Json)
    (evals : List EvalEntry) (summOut : Json)
    (h : processChats chats acc summ = .ok (evals, summOut)) :
    ∃ new, evals = acc ++ new ∧
      summOut = ((new.filter (fun e => e.agent.eqStr "summary")).map
        EvalEntry.content).getLastD summ := by
  induction chats generalizing acc summ with
  | nil =>
      simp only [processChats, Except.ok.injEq, Prod.mk.injEq] at h
      exact ⟨[], by simp [← h.1], by simp [h.2]⟩
  | cons chat rest ih =>
      cases chat with
      | obj fields =>
          cases h1 : fieldsGet fields "__dict__" with
          | some chat_data =>
              simp only [processChats, h1] at h
              cases h2 : extractTurn chat_data with
              | error e =>
                  rw [h2] at h
                  simp [Bind.bind, Except.bind] at h
              | ok e =>
                  rw [h2] at h
                  simp only [Bind.bind, Except.bind] at h
                  obtain ⟨new, hevals, hsumm⟩ := ih _ _ h
                  refine ⟨e :: new, by simp [hevals], ?_⟩
                  rw [hsumm]
                  cases heq : e.agent.eqStr "summary" with
                  | true =>
                      simp only [heq, eq_self_iff_true, if_true]
                      rw [show List.filter (fun e => e.agent.eqStr "summary") (e :: new) =
                            e :: List.filter (fun e => e.agent.eqStr "summary") new from by
                          simp [List.filter_cons, heq]]
                      rw [List.map_cons, List.getLastD_cons]
                  | false =>
                      simp only [heq, Bool.false_eq_true, if_false]
                      rw [show List.filter (fun e => e.agent.eqStr "summary") (e :: new) =
                            List.filter (fun e => e.agent.eqStr "summary") new from by
                          simp [List.filter_cons, heq]]
          | none =>
              simp only [processChats, h1] at h
              exact ih _ _ h
      | null => simp only [processChats] at h; exact ih _ _ h
      | bool b => simp only [processChats] at h; exact ih _ _ h
      | num n => simp only [processChats] at h; exact ih _ _ h
      | str s => simp only [processChats] at h; exact ih _ _ h
      | arr elems => simp only [processChats] at h; exact ih _ _ h

theorem pyGet_ok_obj (v : Json) (key : String) (dflt w : Json)
    (h : pyGet v key dflt = .ok w) : ∃ fields, v = .obj fields := by
  cases v with
  | obj fields => exact ⟨fields, rfl⟩
  | null => simp [pyGet] at h
  | bool b => simp [pyGet] at h
  | num n => simp [pyGet] at h
  | str s => simp [pyGet] at h
  | arr elems => simp [pyGet] at h

theorem objGet_some_obj (v : Json) (key : String) (w : Json)
    (h : v.objGet key = some w) : ∃ fields, v = .obj fields := by
  cases v with
  | obj fields => exact ⟨fields, rfl⟩
  | null => simp [Json.objGet] at h
  | bool b => simp [Json.objGet] at h
  | num n => simp [Json.objGet] at h
  | str s => simp [Json.objGet] at h
  | arr elems => simp [Json.objGet] at h

theorem extractSeq_length (chats : List Json) (out : List EvalEntry)
    (h : extractSeq chats = .ok out) : out.length = chats.length := by
  induction chats generalizing out with
  | nil => simp [extractSeq] at h; simp [← h]
  | cons c rest ih =>
      simp only [extractSeq, Bind.bind, Except.bind] at h
      cases h1 : extractTurn (envelopeOf c) with
      | error e => rw [h1] at h; simp at h
      | ok e =>
          rw [h1] at h
          cases h2 : extractSeq rest with
          | error e2 => rw [h2] at h; simp at h
          | ok es =>
              rw [h2] at h
              simp only [pure, Except.pure, Except.ok.injEq] at h
              simp [← h, ih es h2]

theorem firstMissingFrom_missing (fs : List (String × Json)) (flds : List String)
    (f : String) (h : firstMissingFrom (.obj fs) flds = .ok (some f)) :
    f ∈ flds ∧ fs.any (fun p => p.1 = f) = false := by
  induction flds with
  | nil => simp [firstMissingFrom] at h
  | cons g rest ih =>
      simp only [firstMissingFrom, pyContains, Bind.bind, Except.bind] at h
      cases hg : fs.any (fun p => p.1 = g) with
      | true =>
          rw [hg] at h
          simp only [if_true] at h
          obtain ⟨hmem, hany⟩ := ih h
          exact ⟨by simp [hmem], hany⟩
      | false =>
          rw [hg] at h
          simp only [Bool.false_eq_true, if_false, pure, Except.pure,
            Except.ok.injEq, Option.some.injEq] at h
          subst h
          exact ⟨by simp, hg⟩

theorem promptDetails_length (files : List Json) :
    (promptDetails files).length =
      (files.filter (fun f => REQUIRED_PROMPTS.any (fun p => f.eqStr p.filename))).length := by
  induction files with
  | nil => rfl
  | cons f rest ih =>
      simp only [promptDetails, List.filterMap_cons, List.filter_cons]
      cases h : REQUIRED_PROMPTS.find? (fun p => f.eqStr p.filename) with
      | some p =>
          have hany : REQUIRED_PROMPTS.any (fun p => f.eqStr p.filename) = true :=
            List.any_eq_true.mpr
              ⟨p, List.mem_of_find?_eq_some h, List.find?_some (p := fun q : PromptSpec => f.eqStr q.filename) h⟩
          simp only [hany, if_true, List.length_cons]
          simpa [promptDetails] using ih
      | none =>
          have hany : REQUIRED_PROMPTS.any (fun p => f.eqStr p.filename) = false := by
            cases hc : REQUIRED_PROMPTS.any (fun p => f.eqStr p.filename) with
            | false => rfl
            | true =>
                obtain ⟨q, hq, hpq⟩ := List.any_eq_true.mp hc
                rw [List.find?_eq_none] at h
                exact absurd hpq (by simpa using h q hq)
          simp only [hany, Bool.false_eq_true, if_false]
          simpa [promptDetails] using ih

theorem createLoop_split (post : PostCall → HttpResult) (base revision_id : String)
    (done : List PromptSpec) (p : PromptSpec) (rest : List PromptSpec) (e : PyExn)
    (trace : List PostCall) (results : List Json)
    (hdone : ∀ q ∈ done, raiseForStatus (post (promptCall base revision_id q)) = .ok ())
    (hfail : raiseForStatus (post (promptCall base revision_id p)) = .error e) :
    createLoop post base revision_id (done ++ p :: rest) trace results =
      (trace ++ (done ++ [p]).map (promptCall base revision_id), .error e) := by
  induction done generalizing trace results with
  | nil => simp [createLoop, hfail]
  | cons q done' ih =>
      have hq := hdone q (by simp)
      have hdone' : ∀ r ∈ done', raiseForStatus (post (promptCall base revision_id r)) = .ok () :=
        fun r hr => hdone r (by simp [hr])
      simp only [List.cons_append, createLoop, hq, List.append_eq]
      rw [ih _ _ hdone']
      simp

theorem evaluateBody_validated (chat : EvaluationRequest → HttpResult)
    (loads : String → Option Json) (data : Json) (req : EvaluationRequest)
    (h1 : pyTruthy data = true)
    (h2 : firstMissingIn data = .ok none)
    (h3 : buildEvaluationRequest data = .ok req) :
    evaluateBody chat loads data = do
      let result ← responseJson (chat req)
      let agent_response ← loadAgentResponse loads result
      let chats ← pyIterate agent_response
      let (evaluations, summary_response) ← processChats chats [] .null
      let formatted_result ← formatResult result data evaluations summary_response
      return .success formatted_result := by
  simp only [evaluateBody, h1, Bool.not_true, Bool.false_eq_true, if_false,
    Bind.bind, Except.bind, h2, h3, pure, Except.pure]

theorem evaluateBody_response200 (chat : EvaluationRequest → HttpResult)
    (loads : String → Option Json) (data : Json) (req : EvaluationRequest) (result : Json)
    (h1 : pyTruthy data = true) (h2 : firstMissingIn data = .ok none)
    (h3 : buildEvaluationRequest data = .ok req)
    (h4 : chat req = .response 200 (some result)) :
    evaluateBody chat loads data = do
      let agent_response ← loadAgentResponse loads result
      let chats ← pyIterate agent_response
      let (evaluations, summary_response) ← processChats chats [] .null
      let formatted_result ← formatResult result data evaluations summary_response
      return .success formatted_result := by
  rw [evaluateBody_validated chat loads data req h1 h2 h3]
  simp only [h4, responseJson]
  rw [if_neg (by omega)]
  simp only [Bind.bind, Except.bind]

/-- C2: for every decomposed turn sequence that the loop processes without
raising, `summary_response` equals the content of the last produced entry
whose agent name is the string `"summary"` (last-write-wins), and is `None`
(`Json.null`) when no such entry exists — `getLastD` of the empty list is its
default. -/
theorem C2_summary_last_write_wins (chats : List Json) (evals : List EvalEntry)
    (summOut : Json) (h : processChats chats [] .null = .ok (evals, summOut)) :
    summOut = ((evals.filter (fun e => e.agent.eqStr "summary")).map
      EvalEntry.content).getLastD .null := by
  obtain ⟨new, hevals, hsumm⟩ := processChats_summary chats [] .null evals summOut h
  rw [List.nil_append] at hevals
  rw [hevals, hsumm]

/-- C2 witness: two summary turns with contents A then B produce summary B. -/
theorem C2_witness :
    (Json.str "B") =
      ((([⟨.str "summary", .str "A", .num 1⟩,
          ⟨.str "summary", .str "B", .num 2⟩] : List EvalEntry).filter
            (fun e => e.agent.eqStr "summary")).map EvalEntry.content).getLastD .null :=
  C2_summary_last_write_wins
    [mkTurn "summary" "A" 1, mkTurn "summary" "B" 2] _ _ (by rfl)

/-- C3 (amended): for an element recognized as a turn object whose envelope
(and every value present along the nested content path) is a dict, field
extraction is total: `agent_name` defaults to the empty string when
`chat_name` is absent, `content` is the optional-chain reading of
`chat_response → chat_message → __dict__ → content` defaulting to the empty
string as soon as a link is absent, and `tokens` defaults to zero when
`completion_tokens` is absent.  (As stated — for *every* recognized turn
object — the claim is false: a non-dict envelope or a present non-dict link
raises `AttributeError` and aborts the whole call; see the counterexample.) -/
theorem C3_extraction_total_on_good (chat_data : Json)
    (h : goodEnvelope chat_data = true) :
    ∃ e, extractTurn chat_data = .ok e ∧
      e.agent = (chat_data.objGet "chat_name").getD (.str "") ∧
      e.content = (contentChain chat_data).getD (.str "") ∧
      e.tokens = (chat_data.objGet "completion_tokens").getD (.num 0) :=
  ⟨_, extractTurn_of_good chat_data h, rfl, rfl, rfl⟩

/-- C3 counterexample: an element recognized as a turn object (a dict
carrying `"__dict__"`) whose envelope is the number 5 makes extraction raise
`AttributeError` — extraction is not total on recognized turn objects. -/
theorem C3_counterexample :
    processChats [badTurn] [] .null = .error .attributeError := by rfl

/-- C3 witness: the empty envelope extracts to all three defaults. -/
theorem C3_witness :
    ∃ e, extractTurn (.obj []) = .ok e ∧
      e.agent = ((Json.obj []).objGet "chat_name").getD (.str "") ∧
      e.content = (contentChain (.obj [])).getD (.str "") ∧
      e.tokens = ((Json.obj []).objGet "completion_tokens").getD (.num 0) :=
  C3_extraction_total_on_good (.obj []) (by rfl)

/-- C4: whenever `formatted_result` is assembled, its `token_count` is the
outer response's top-level `token_count` field with default zero — it is
never recomputed from the per-turn `tokens` values. -/
theorem C4_token_count_from_top_level (result data : Json) (evals : List EvalEntry)
    (summ : Json) (fr : FormattedResult)
    (h : formatResult result data evals summ = .ok fr) :
    fr.token_count = (result.objGet "token_count").getD (.num 0) := by
  cases result with
  | null => simp [formatResult, pyGetNone, pyGet, Bind.bind, Except.bind] at h
  | bool b => simp [formatResult, pyGetNone, pyGet, Bind.bind, Except.bind] at h
  | num n => simp [formatResult, pyGetNone, pyGet, Bind.bind, Except.bind] at h
  | str s => simp [formatResult, pyGetNone, pyGet, Bind.bind, Except.bind] at h
  | arr elems => simp [formatResult, pyGetNone, pyGet, Bind.bind, Except.bind] at h
  | obj rf =>
      cases data with
      | null => simp [formatResult, pyGetNone, pyGet, Bind.bind, Except.bind] at h
      | bool b => simp [formatResult, pyGetNone, pyGet, Bind.bind, Except.bind] at h
      | num n => simp [formatResult, pyGetNone, pyGet, Bind.bind, Except.bind] at h
      | str s => simp [formatResult, pyGetNone, pyGet, Bind.bind, Except.bind] at h
      | arr elems => simp [formatResult, pyGetNone, pyGet, Bind.bind, Except.bind] at h
      | obj df =>
          simp only [formatResult, pyGetNone, pyGet, Bind.bind, Except.bind, pure,
            Except.pure, Except.ok.injEq] at h
          rw [← h]
          simp [Json.objGet]

/-- C4 witness: top-level `token_count` 500 with per-turn tokens 30 and 50
(sum 80): the report carries 500, not the sum. -/
theorem C4_witness :
    frC4.token_count = Json.num 500 ∧
    evalsTok.map EvalEntry.tokens = [Json.num 30, Json.num 50] ∧
    (30 : Int) + 50 = 80 ∧
    frC4.token_count ≠ Json.num 80 :=
  ⟨(C4_token_count_from_top_level resultTok500 (.obj []) evalsTok .null frC4
      (by rfl)).trans (by rfl),
   by rfl, by decide, fun h => absurd (Json.num.inj h) (by decide)⟩

/-- C5 (amended): a truthy caller payload dict from which a required field is
absent fails with the 400 naming the first absent field of
`revision_id, submissions, criteria` (in that order), and the outcome does
not depend on the backend gateway or the parse oracle — no network call is
made.  (As stated — for *every* payload missing a required field — the claim
is false: the empty dict payload is falsy in Python, so it takes the
`"Request data is required"` branch, which names no field; see the
counterexample.) -/
theorem C5_validation_names_first_missing (fs : List (String × Json)) (f : String)
    (h1 : pyTruthy (.obj fs) = true)
    (h2 : firstMissingIn (.obj fs) = .ok (some f)) :
    (∀ chat loads, api_evaluate_submissions chat loads (.obj fs) =
      .badRequestMissingField f) ∧
    f ∈ requiredFields ∧ fs.any (fun p => p.1 = f) = false := by
  obtain ⟨hmem, hany⟩ := firstMissingFrom_missing fs requiredFields f h2
  refine ⟨?_, hmem, hany⟩
  intro chat loads
  simp only [api_evaluate_submissions, evaluateBody, h1, Bool.not_true,
    Bool.false_eq_true, if_false, h2, Bind.bind, Except.bind, pure, Except.pure]

/-- C5 counterexample: the empty dict payload has all three required fields
absent, yet the call answers the generic `"Request data is required"` 400,
which names no field. -/
theorem C5_counterexample :
    api_evaluate_submissions (chatConst (.response 200 (some resultPlain)))
      (loadsStd []) (.obj []) = .badRequestNoData := by rfl

/-- C5 witness: a payload with `criteria` absent is rejected naming
`criteria`, whatever the gateway would have answered. -/
theorem C5_witness :
    api_evaluate_submissions (chatConst (.response 200 (some resultPlain)))
      (loadsStd []) (.obj [("revision_id", .str "r1"), ("submissions", .arr [])]) =
      .badRequestMissingField "criteria" :=
  (C5_validation_names_first_missing
      [("revision_id", .str "r1"), ("submissions", .arr [])] "criteria"
      (by rfl) (by rfl)).1
    (chatConst (.response 200 (some resultPlain))) (loadsStd [])

/-- C6: a payload carrying `revision_id` (a string r) plus `submissions` and
`criteria`, with `identifier`, `thread_id` and `user_id` absent, builds the
job with `identifier = "eval-" ++ r` (inside `user_prompt`),
`thread_id = "thread-" ++ r`, and the sentinel `user_id = "flask-user"`. -/
theorem C6_build_defaults (fs : List (String × Json)) (r : String)
    (hrev : fieldsGet fs "revision_id" = some (.str r))
    (hid : fieldsGet fs "identifier" = none)
    (hth : fieldsGet fs "thread_id" = none)
    (huid : fieldsGet fs "user_id" = none)
    (hsub : (fieldsGet fs "submissions").isSome = true)
    (hcrit : (fieldsGet fs "criteria").isSome = true) :
    ∃ req, buildEvaluationRequest (.obj fs) = .ok req ∧
      req.user_prompt.identifier = .str ("eval-" ++ r) ∧
      req.thread_id = .str ("thread-" ++ r) ∧
      req.user_id = .str "flask-user" := by
  obtain ⟨sv, hsv⟩ := Option.isSome_iff_exists.mp hsub
  obtain ⟨cv, hcv⟩ := Option.isSome_iff_exists.mp hcrit
  refine ⟨{ conversation_flow := "submission-over-criteria"
            user_id := .str "flask-user"
            thread_id := .str ("thread-" ++ r)
            user_prompt := { revision_id := .str r
                             identifier := .str ("eval-" ++ r)
                             submissions := sv
                             criteria := cv
                             additional_context :=
                               (fieldsGet fs "additional_context").getD (.str "") } },
         ?_, rfl, rfl, rfl⟩
  simp only [buildEvaluationRequest, pyGet, pyIndex, hrev, hid, hth, huid, hsv, hcv,
    Bind.bind, Except.bind, pure, Except.pure, Option.getD]
  simp [pyStrF]

/-- C6 witness: revision r1 with identifier and thread absent gives
`eval-r1` and `thread-r1`. -/
theorem C6_witness :
    ∃ req, buildEvaluationRequest
        (.obj [("revision_id", .str "r1"), ("submissions", .arr []),
               ("criteria", .arr [])]) = .ok req ∧
      req.user_prompt.identifier = .str ("eval-" ++ "r1") ∧
      req.thread_id = .str ("thread-" ++ "r1") ∧
      req.user_id = .str "flask-user" :=
  C6_build_defaults
    [("revision_id", .str "r1"), ("submissions", .arr []), ("criteria", .arr [])]
    "r1" (by rfl) (by rfl) (by rfl) (by rfl) (by rfl) (by rfl)

/-- C1 (amended): for a backend response whose embedded agent-turn sequence
parses as a list in which every element carrying the `"__dict__"` marker has
a well-formed envelope (`goodElem`), the report is produced and its
`evaluations` holds exactly one entry per marked element, in sequence order
(`extractSeq` over the marked elements); all other elements are skipped
without raising.  (As stated — for *every* list — the claim is false: a
marked element with a non-dict envelope raises `AttributeError` and the call
returns an error instead of a report; see the counterexample.) -/
theorem C1_report_entries (chat : EvaluationRequest → HttpResult)
    (loads : String → Option Json) (data : Json) (req : EvaluationRequest)
    (result : Json) (elems : List Json)
    (h1 : pyTruthy data = true) (h2 : firstMissingIn data = .ok none)
    (h3 : buildEvaluationRequest data = .ok req)
    (h4 : chat req = .response 200 (some result))
    (h5 : loadAgentResponse loads result = .ok (.arr elems))
    (h6 : ∀ c ∈ elems, goodElem c = true) :
    ∃ fr, api_evaluate_submissions chat loads data = .success fr ∧
      extractSeq (elems.filter isTurnObject) = .ok fr.evaluations ∧
      fr.evaluations.length = (elems.filter isTurnObject).length := by
  obtain ⟨out, summOut, hrun, hmap⟩ := processChats_of_good elems [] .null h6
  rw [List.nil_append] at hrun
  obtain ⟨rf, hrf⟩ : ∃ fields, result = .obj fields := by
    cases hw : pyGet result "agent_response" (.str "[]") with
    | ok w => exact pyGet_ok_obj _ _ _ _ hw
    | error e => simp [loadAgentResponse, hw, Bind.bind, Except.bind] at h5
  subst hrf
  obtain ⟨df, hdf⟩ : ∃ fields, data = .obj fields := by
    cases hw : pyGet data "user_id" (.str "flask-user") with
    | ok w => exact pyGet_ok_obj _ _ _ _ hw
    | error e => simp [buildEvaluationRequest, hw, Bind.bind, Except.bind] at h3
  subst hdf
  refine ⟨{ evaluation_id := (fieldsGet rf "message_id").getD .null
            thread_id := (fieldsGet rf "thread_id").getD .null
            summary := summOut
            evaluations := out
            token_count := (fieldsGet rf "token_count").getD (.num 0)
            timestamp := (fieldsGet df "timestamp").getD .null },
         ?_, hmap, extractSeq_length _ _ hmap⟩
  simp only [api_evaluate_submissions]
  rw [evaluateBody_response200 chat loads (.obj df) req (.obj rf) h1 h2 h3 h4]
  simp only [h5, Bind.bind, Except.bind, pyIterate]
  rw [hrun]
  simp [formatResult, pyGetNone, pyGet, Bind.bind, Except.bind, pure, Except.pure]

/-- C1 counterexample: a backend response whose embedded sequence is the
one-element list `[{"__dict__": 5}]` — an element that is a dict carrying the
marker — produces no report at all (the call answers the catch-all 500 for
the `AttributeError`), not a report with one entry. -/
theorem C1_counterexample :
    api_evaluate_submissions (chatConst (.response 200 (some (resultWith "X"))))
      (loadsStd [("X", .arr [badTurn])]) dataMinimal =
      .unexpectedError .attributeError := by rfl

/-- C1 witness: the sequence [validTurn, "garbage", validTurn2] yields a
report whose `evaluations` has exactly the 2 entries of the marked elements. -/
theorem C1_witness :
    (∃ fr, api_evaluate_submissions
        (chatConst (.response 200 (some (resultWith "T"))))
        (loadsStd [("T", .arr elemsC1)]) dataMinimal = .success fr ∧
      extractSeq (elemsC1.filter isTurnObject) = .ok fr.evaluations ∧
      fr.evaluations.length = (elemsC1.filter isTurnObject).length) ∧
    (elemsC1.filter isTurnObject).length = 2 :=
  ⟨C1_report_entries (chatConst (.response 200 (some (resultWith "T"))))
      (loadsStd [("T", .arr elemsC1)]) dataMinimal _ (resultWith "T") elemsC1
      (by rfl) (by rfl) (by rfl) (by rfl) (by rfl) (by decide),
   by rfl⟩

/-- C7 (amended): a backend response whose embedded `agent_response` field is
present but is not well-formed JSON text makes the call fail with the
`json.JSONDecodeError` 500 and return no report.  (As stated — also for an
*absent* field — the claim is false: an absent field defaults to the text
`"[]"`, which parses to the empty sequence, and the call returns a report
with empty `evaluations`; see the counterexample.) -/
theorem C7_malformed_embedded_fatal (chat : EvaluationRequest → HttpResult)
    (loads : String → Option Json) (data : Json) (req : EvaluationRequest)
    (result : Json) (s : String)
    (h1 : pyTruthy data = true) (h2 : firstMissingIn data = .ok none)
    (h3 : buildEvaluationRequest data = .ok req)
    (h4 : chat req = .response 200 (some result))
    (h5 : result.objGet "agent_response" = some (.str s))
    (h6 : loads s = none) :
    api_evaluate_submissions chat loads data = .jsonParsingError := by
  obtain ⟨rf, hrf⟩ := objGet_some_obj result "agent_response" (.str s) h5
  subst hrf
  simp only [Json.objGet] at h5
  simp only [api_evaluate_submissions]
  rw [evaluateBody_response200 chat loads data req (.obj rf) h1 h2 h3 h4]
  simp only [loadAgentResponse, pyGet, h5, Option.getD, h6, Bind.bind, Except.bind]
  simp [handleEvaluateExn, PyExn.isRequestException]

/-- C7 counterexample: with `agent_response` absent from the backend body,
the call returns a full report (empty `evaluations`, `summary` null), not a
decode error. -/
theorem C7_counterexample :
    api_evaluate_submissions (chatConst (.response 200 (some resultPlain)))
      (loadsStd []) dataMinimal =
      .success ⟨.str "m1", .str "t1", .null, [], .num 7, .null⟩ := by rfl

/-- C7 witness: an `agent_response` holding unparseable text is fatal. -/
theorem C7_witness :
    api_evaluate_submissions (chatConst (.response 200 (some (resultWith "oops"))))
      (loadsStd []) dataMinimal = .jsonParsingError :=
  C7_malformed_embedded_fatal (chatConst (.response 200 (some (resultWith "oops"))))
    (loadsStd []) dataMinimal _ (resultWith "oops") "oops"
    (by rfl) (by rfl) (by rfl) (by rfl) (by rfl) (by rfl)

/-- C8 (amended): a backend response with an HTTP status in [400, 600)
surfaces as the `requests.RequestException` 500 carrying
`HTTPError{status}`, and no report is returned.  (As stated — for *every*
non-2xx status — the claim is false: `raise_for_status` raises only for
4xx/5xx, so a 300 response with a parseable body yields a normal report; see
the counterexample.) -/
theorem C8_gateway_error_carries_status (chat : EvaluationRequest → HttpResult)
    (loads : String → Option Json) (data : Json) (req : EvaluationRequest)
    (st : Nat) (body : Option Json)
    (h1 : pyTruthy data = true) (h2 : firstMissingIn data = .ok none)
    (h3 : buildEvaluationRequest data = .ok req)
    (h4 : chat req = .response st body)
    (h5 : 400 ≤ st) (h6 : st < 600) :
    api_evaluate_submissions chat loads data = .apiRequestFailed (.httpError st) := by
  simp only [api_evaluate_submissions]
  rw [evaluateBody_validated chat loads data req h1 h2 h3]
  simp only [h4, responseJson]
  rw [if_pos ⟨h5, h6⟩]
  simp [Bind.bind, Except.bind, handleEvaluateExn, PyExn.isRequestException]

/-- C8 counterexample: a 300 (non-2xx) backend response with a parseable
body is not treated as an error — the call returns a report, so no
`GatewayError{status: 300}` is surfaced. -/
theorem C8_counterexample :
    api_evaluate_submissions (chatConst (.response 300 (some resultPlain)))
      (loadsStd []) dataMinimal =
      .success ⟨.str "m1", .str "t1", .null, [], .num 7, .null⟩ := by rfl

/-- C8 witness: a 503 backend response surfaces as the gateway error
carrying status 503 and no report. -/
theorem C8_witness :
    api_evaluate_submissions (chatConst (.response 503 none))
      (loadsStd []) dataMinimal = .apiRequestFailed (.httpError 503) :=
  C8_gateway_error_carries_status (chatConst (.response 503 none)) (loadsStd [])
    dataMinimal _ 503 none (by rfl) (by rfl) (by rfl) (by rfl) (by omega) (by omega)

/-- C9: `api_create_default_prompts` posts one "set content" call per roster
entry in roster order; when the call for some entry fails, the issued-call
trace is exactly the roster prefix up to and including that entry (the
remaining entries are never attempted), the first error is surfaced as the
500, and no partial `results` list is reported. -/
theorem C9_create_default_aborts_on_first_failure (post : PostCall → HttpResult)
    (base revision_id : String) (done : List PromptSpec) (p : PromptSpec)
    (rest : List PromptSpec) (e : PyExn)
    (hroster : REQUIRED_PROMPTS = done ++ p :: rest)
    (hdone : ∀ q ∈ done, raiseForStatus (post (promptCall base revision_id q)) = .ok ())
    (hfail : raiseForStatus (post (promptCall base revision_id p)) = .error e) :
    api_create_default_prompts post base revision_id =
      ((done ++ [p]).map (promptCall base revision_id), .requestFailed e) := by
  simp only [api_create_default_prompts, hroster]
  rw [createLoop_split post base revision_id done p rest e [] [] hdone hfail]
  simp

/-- C9 witness: with the prompt store failing on the third roster entry
(`feasibility_agent_prompt.jinja`) with a 503, exactly the first three calls
are issued, the 503 is surfaced, and no results list is returned. -/
theorem C9_witness :
    api_create_default_prompts
        (postFailOn (promptUpdateUrl "b" "r" "feasibility_agent_prompt.jinja") 503)
        "b" "r" =
      ((REQUIRED_PROMPTS.take 2 ++ [REQUIRED_PROMPTS.getD 2 promptDflt]).map
        (promptCall "b" "r"), .requestFailed (.httpError 503)) :=
  C9_create_default_aborts_on_first_failure
    (postFailOn (promptUpdateUrl "b" "r" "feasibility_agent_prompt.jinja") 503)
    "b" "r" (REQUIRED_PROMPTS.take 2) (REQUIRED_PROMPTS.getD 2 promptDflt)
    (REQUIRED_PROMPTS.drop 3) (.httpError 503) (by rfl) (by decide) (by decide)

/-- C10: for a backend listing whose `files` field is a list, the route
returns exactly `promptDetails` of those values — each listed value matching
a roster filename contributes its metadata record, every other value is
silently dropped — so the output length equals the number of listed values
whose filename occurs in the roster. -/
theorem C10_list_prompts_roster_filter (get : String → HttpResult)
    (base revision_id : String) (body : Json) (files : List Json)
    (h1 : get (base ++ "/api/v1/prompts/list/" ++ revision_id) =
      .response 200 (some body))
    (h2 : body.objGet "files" = some (.arr files)) :
    api_list_prompts get base revision_id = .success (promptDetails files) ∧
    (promptDetails files).length =
      (files.filter (fun f => REQUIRED_PROMPTS.any (fun p => f.eqStr p.filename))).length := by
  obtain ⟨bf, hbf⟩ := objGet_some_obj body "files" (.arr files) h2
  subst hbf
  simp only [Json.objGet] at h2
  refine ⟨?_, promptDetails_length files⟩
  simp only [api_list_prompts, listPromptsBody, h1, responseJson]
  rw [if_neg (by omega)]
  simp only [pyGet, h2, Option.getD, pyIterate, Bind.bind, Except.bind, pure, Except.pure]

/-- C10 witness: a listing of one roster filename and one unknown filename
yields exactly one annotated entry. -/
theorem C10_witness :
    (api_list_prompts
        (getConst (.response 200 (some (.obj [("files",
          .arr [.str "summary_prompt.jinja", .str "unknown.jinja"])]))))
        "b" "r" =
      .success (promptDetails [.str "summary_prompt.jinja", .str "unknown.jinja"]) ∧
     (promptDetails [.str "summary_prompt.jinja", .str "unknown.jinja"]).length =
      (([.str "summary_prompt.jinja", .str "unknown.jinja"] : List Json).filter
        (fun f => REQUIRED_PROMPTS.any (fun p => f.eqStr p.filename))).length) ∧
    (promptDetails [.str "summary_prompt.jinja", .str "unknown.jinja"]).length = 1 :=
  ⟨C10_list_prompts_roster_filter
      (getConst (.response 200 (some (.obj [("files",
        .arr [.str "summary_prompt.jinja", .str "unknown.jinja"])]))))
      "b" "r" (.obj [("files", .arr [.str "summary_prompt.jinja", .str "unknown.jinja"])])
      [.str "summary_prompt.jinja", .str "unknown.jinja"] (by rfl) (by rfl),
   by rfl⟩
